import Mathlib

/-!
Verification of the authentication / role-authorization layer of the
patient-management repository.

The repository's `backend/middlewares/authMiddleware.js` is referenced by its
tests (`backend/tests/middlewares/authMiddleware.test.js`), by every guarded
route (`userRoutes`, `patientRoutes`, …) and by the architecture document, but
its own source file is not present in the snapshot.  The gate `authGate` below
is therefore modelled from the specification's algorithm (spec §4.1), with the
concrete HTTP statuses and response bodies pinned by the test suite that is
present: 403 `Access denied` for a missing/malformed header, 401
`Invalid token` for a failed verification or an expired token, 403 `Forbidden`
for a role outside a non-empty allowlist.

The login / registration routes (`backend/routes/authRoutes.js`) and the
patient-detail route (`routes/userRoutes.js` / `routes/patientRoutes.js`) are
present in the snapshot and are embedded directly from their source.
-/

set_option autoImplicit false

namespace ProjectAlpha

/-- Modelled from the spec: the decoded Claim carried inside a credential
(spec §3).  The subject identifier is carried under the canonical name
`subjectId`; the role is `Option`al because a token may be signed without any
role field (spec §8, scenario "Claim has no `role` field"). -/
structure Claim where
  subjectId : String
  role : Option String
  issuedAt : Nat
  expiresAt : Nat
deriving DecidableEq, Repr

/-- Modelled from the spec: cryptographic verification of an opaque token
string against the process-wide signing secret.  With the secret fixed,
verification is a pure function from token strings to the claim they decode
to, `none` for a bad signature or malformed structure; expiry is checked
separately against the current time (spec §4.1 step 2). -/
def TokenEnv : Type := String → Option Claim

/-- The seven characters of the mandatory header shape, spec §6: a single
request header carrying the token immediately after one `Bearer ` marker. -/
def bearerChars : List Char := ['B', 'e', 'a', 'r', 'e', 'r', ' ']

/-- Modelled from the spec: header parsing, spec §4.1 step 1.  The header must
be exactly the seven `Bearer ` characters immediately followed by the
non-empty token, with no surrounding whitespace tolerance and no extra
delimiters inside the token part. -/
def extractToken : Option String → Option String
  | none => none
  | some h =>
    if h.data.take 7 = bearerChars then
      if h.data.drop 7 = [] ∨ ' ' ∈ h.data.drop 7 then none
      else some (String.mk (h.data.drop 7))
    else none

/-- The three failure kinds of the gate, spec §7. -/
inductive AuthError where
  | accessDenied
  | invalidCredential
  | forbidden
deriving DecidableEq, Repr

/-- HTTP status mapping, spec §6. -/
def statusOf : AuthError → Nat
  | .accessDenied => 403
  | .invalidCredential => 401
  | .forbidden => 403

/-- Response bodies pinned by `backend/tests/middlewares/authMiddleware.test.js`. -/
def bodyOf : AuthError → String
  | .accessDenied => "Access denied"
  | .invalidCredential => "Invalid token"
  | .forbidden => "Forbidden"

/-- Observable outcome of one gate invocation: the error responses emitted
through the response object, the number of times the downstream handler
(`next`) was called, and the identity attached to the request context. -/
structure GateResult where
  responses : List (Nat × String)
  nextCalls : Nat
  identity : Option Claim
deriving DecidableEq, Repr

/-- Short-circuit with a single error response; the downstream handler is not
called (spec §4.1, output on failure). -/
def reject (e : AuthError) (identity : Option Claim) : GateResult :=
  { responses := [(statusOf e, bodyOf e)], nextCalls := 0, identity := identity }

/-- Delegate to the downstream handler exactly once with the decoded identity
attached (spec §4.1, output on success). -/
def proceedWith (c : Claim) : GateResult :=
  { responses := [], nextCalls := 1, identity := some c }

/-- Modelled from the spec: the allowlist decision, spec §4.1 steps 4–5.  An
empty permitted-roles configuration is authenticated-only; otherwise the
claim's role must be present and a member of the list. -/
def checkRole (roles : List String) (c : Claim) : GateResult :=
  if roles = [] then proceedWith c
  else
    match c.role with
    | none => reject .forbidden (some c)
    | some r => if r ∈ roles then proceedWith c else reject .forbidden (some c)

/-- Modelled from the spec: verification stage, spec §4.1 steps 2–3.  A token
the secret does not verify (bad signature or malformed structure) and a
verified token whose `expiresAt` is not in the future both fail with
`invalidCredential`; on success the decoded claim is attached and the
allowlist is consulted. -/
def verifyStage (env : TokenEnv) (roles : List String) (now : Nat) (tok : String) : GateResult :=
  match env tok with
  | none => reject .invalidCredential none
  | some c =>
    if c.expiresAt ≤ now then reject .invalidCredential none
    else checkRole roles c

/-- Modelled from the spec: one full invocation of AuthGate (spec §4.1) on the
raw credential header, for a route registered with `roles` as its
permitted-roles configuration. -/
def authGate (env : TokenEnv) (roles : List String) (now : Nat)
    (header : Option String) : GateResult :=
  match extractToken header with
  | none => reject .accessDenied none
  | some tok => verifyStage env roles now tok

/-- A user row, `prisma/migrations` table `User`. -/
structure User where
  id : String
  name : String
  email : String
  password : String
  role : String
deriving DecidableEq, Repr

/-- The JSON body accepted by `router.post` for registration in
`backend/routes/authRoutes.js`. -/
structure RegisterBody where
  name : String
  email : String
  password : String
  role : String
deriving DecidableEq, Repr

/-- From `backend/routes/authRoutes.js` registration: the route destructures
`{ name, email, password, role }` from the request body and stores them
verbatim via `prisma.user.create` (the id is assigned by the database); no
validation is applied to any field, in particular not to `role`. -/
def registeredUser (freshId : String) (b : RegisterBody) : User :=
  { id := freshId, name := b.name, email := b.email, password := b.password, role := b.role }

/-- The JWT payload signed at login in `backend/routes/authRoutes.js`:
`jwt.sign({ userId: user.id, role: user.role }, secret, { expiresIn: '24h' })`
together with the `iat` and `exp` timestamps the library adds. -/
structure TokenPayload where
  userId : String
  role : String
  iat : Nat
  exp : Nat
deriving DecidableEq, Repr

/-- Outcome of the login route: 400 `User not found`, 401 `Invalid password`,
or 200 with a signed token. -/
inductive LoginResult where
  | userNotFound
  | invalidPassword
  | success (payload : TokenPayload)
deriving DecidableEq, Repr

/-- Seconds in the `'24h'` lifetime passed to `jwt.sign` at login. -/
def tokenLifetime : Nat := 86400

/-- From `backend/routes/authRoutes.js` login: look the user up by email
(`found` is the lookup result), compare the stored password with the supplied
one (this variant stores and compares plain passwords), then sign
`{ userId: user.id, role: user.role }` with a 24-hour lifetime. -/
def login (found : Option User) (password : String) (now : Nat) : LoginResult :=
  match found with
  | none => .userNotFound
  | some u =>
    if u.password ≠ password then .invalidPassword
    else .success { userId := u.id, role := u.role, iat := now, exp := now + tokenLifetime }

/-- A patient row, `prisma/migrations` table `Patient`. -/
structure Patient where
  id : String
  name : String
  age : Nat
  medicalHistory : Option String
  insuranceDetails : Option String
  doctorId : Option String
deriving DecidableEq, Repr

/-- HTTP response of the patient-detail route: a status, the returned record
when the fetch succeeds, and the error body otherwise. -/
structure RouteResponse where
  status : Nat
  body : Option Patient
  error : Option String
deriving DecidableEq, Repr

/-- From `routes/userRoutes.js` (`router.get` on `patient/:id`) and the
identical handler in `routes/patientRoutes.js` (`router.get` on `:id`), both
behind `authMiddleware(['doctor', 'patient'])`: fetch the record by id
(`stored` is the lookup result), 404 when absent; then
`if (req.user.role === 'patient' && req.user.userId !== patient.id)` respond
403 `Access denied`, otherwise return the record. -/
def getPatientById (user : TokenPayload) (stored : Option Patient) : RouteResponse :=
  match stored with
  | none => { status := 404, body := none, error := some "Patient not found" }
  | some p =>
    if user.role = "patient" ∧ user.userId ≠ p.id then
      { status := 403, body := none, error := some "Access denied" }
    else { status := 200, body := some p, error := none }

/-! Helper lemmas shared by the claim theorems. -/

theorem extractToken_bearer (tok : List Char) :
    extractToken (some (String.mk (bearerChars ++ tok)))
      = if tok = [] ∨ ' ' ∈ tok then none else some (String.mk tok) := by
  have h1 : (bearerChars ++ tok).take 7 = bearerChars := List.take_left bearerChars tok
  have h2 : (bearerChars ++ tok).drop 7 = tok := List.drop_left bearerChars tok
  show (if (bearerChars ++ tok).take 7 = bearerChars then
      if (bearerChars ++ tok).drop 7 = [] ∨ ' ' ∈ (bearerChars ++ tok).drop 7 then none
      else some (String.mk ((bearerChars ++ tok).drop 7))
    else none) = _
  rw [h1, h2, if_pos rfl]

theorem extractToken_some_shape (h tokS : String)
    (hx : extractToken (some h) = some tokS) :
    ∃ t : List Char, t ≠ [] ∧ ' ' ∉ t ∧ h = String.mk (bearerChars ++ t) := by
  simp only [extractToken] at hx
  by_cases h1 : h.data.take 7 = bearerChars
  · rw [if_pos h1] at hx
    by_cases h2 : h.data.drop 7 = [] ∨ ' ' ∈ h.data.drop 7
    · rw [if_pos h2] at hx; exact absurd hx (by simp)
    · push_neg at h2
      refine ⟨h.data.drop 7, h2.1, h2.2, ?_⟩
      have hd : h.data = bearerChars ++ h.data.drop 7 := by
        conv_lhs => rw [← List.take_append_drop 7 h.data]
        rw [h1]
      calc h = String.mk h.data := rfl
        _ = String.mk (bearerChars ++ h.data.drop 7) := by rw [← hd]
  · rw [if_neg h1] at hx; exact absurd hx (by simp)

theorem authGate_bearer (env : TokenEnv) (roles : List String) (now : Nat)
    (tok : List Char) (htne : tok ≠ []) (htsp : ' ' ∉ tok) :
    authGate env roles now (some (String.mk (bearerChars ++ tok)))
      = verifyStage env roles now (String.mk tok) := by
  unfold authGate
  rw [extractToken_bearer, if_neg (by simp [htne, htsp])]

theorem verifyStage_badtoken (env : TokenEnv) (roles : List String) (now : Nat)
    (tok : String) (h : env tok = none) :
    verifyStage env roles now tok = reject .invalidCredential none := by
  unfold verifyStage
  rw [h]

theorem verifyStage_expired (env : TokenEnv) (roles : List String) (now : Nat)
    (tok : String) (c : Claim) (h : env tok = some c) (he : c.expiresAt ≤ now) :
    verifyStage env roles now tok = reject .invalidCredential none := by
  unfold verifyStage
  rw [h]
  simp [he]

theorem verifyStage_fresh (env : TokenEnv) (roles : List String) (now : Nat)
    (tok : String) (c : Claim) (h : env tok = some c) (he : now < c.expiresAt) :
    verifyStage env roles now tok = checkRole roles c := by
  unfold verifyStage
  rw [h]
  simp [Nat.not_le_of_lt he]

theorem checkRole_allowed (roles : List String) (c : Claim)
    (h : roles = [] ∨ ∃ r, c.role = some r ∧ r ∈ roles) :
    checkRole roles c = proceedWith c := by
  unfold checkRole
  rcases h with h | ⟨r, hr, hm⟩
  · rw [if_pos h]
  · by_cases hq : roles = []
    · rw [if_pos hq]
    · rw [if_neg hq, hr]
      simp [hm]

theorem checkRole_forbidden (roles : List String) (c : Claim)
    (hne : roles ≠ []) (h : ∀ r, c.role = some r → r ∉ roles) :
    checkRole roles c = reject .forbidden (some c) := by
  unfold checkRole
  rw [if_neg hne]
  cases hr : c.role with
  | none => rfl
  | some r => simp [h r hr]

theorem login_some (u : User) (pw : String) (now : Nat) :
    login (some u) pw now
      = if u.password ≠ pw then .invalidPassword
        else .success { userId := u.id, role := u.role, iat := now, exp := now + tokenLifetime } :=
  rfl

theorem getPatientById_some (user : TokenPayload) (p : Patient) :
    getPatientById user (some p)
      = if user.role = "patient" ∧ user.userId ≠ p.id then
          { status := 403, body := none, error := some "Access denied" }
        else { status := 200, body := some p, error := none } :=
  rfl

/-! Claim theorems. -/

/-- C1: for every request carrying a valid, unexpired token whose claim role
is in the route's permitted-roles list (or whose permitted-roles list is
empty), AuthGate proceeds — the downstream handler runs exactly once with no
error response — and the attached identity's `subjectId` is exactly the
subject identifier the issuance environment encoded into the token. -/
theorem authGate_valid_token_proceeds (env : TokenEnv) (roles : List String) (now : Nat)
    (tok : List Char) (c : Claim)
    (htne : tok ≠ []) (htsp : ' ' ∉ tok)
    (henv : env (String.mk tok) = some c)
    (hexp : now < c.expiresAt)
    (hrole : roles = [] ∨ ∃ r, c.role = some r ∧ r ∈ roles) :
    authGate env roles now (some (String.mk (bearerChars ++ tok)))
      = { responses := [], nextCalls := 1, identity := some c }
    ∧ (authGate env roles now (some (String.mk (bearerChars ++ tok)))).identity.map
        Claim.subjectId = some c.subjectId := by
  have h : authGate env roles now (some (String.mk (bearerChars ++ tok))) = proceedWith c := by
    rw [authGate_bearer env roles now tok htne htsp,
      verifyStage_fresh env roles now _ c henv hexp,
      checkRole_allowed roles c hrole]
  exact ⟨h, by rw [h]; rfl⟩

/-- Witness for C1 at a concrete input: token string `t`, claim with subject
`u-1` and role `doctor`, allowlist `[doctor]`, current time 5 before expiry. -/
theorem authGate_valid_token_proceeds_witness :
    authGate (fun s => if s = String.mk ['t'] then some ⟨"u-1", some "doctor", 0, 100⟩ else none)
        ["doctor"] 5 (some (String.mk (bearerChars ++ ['t'])))
      = { responses := [], nextCalls := 1, identity := some ⟨"u-1", some "doctor", 0, 100⟩ }
    ∧ (authGate (fun s => if s = String.mk ['t'] then some ⟨"u-1", some "doctor", 0, 100⟩ else none)
        ["doctor"] 5 (some (String.mk (bearerChars ++ ['t'])))).identity.map
        Claim.subjectId = some ("u-1" : String) :=
  authGate_valid_token_proceeds _ _ _ ['t'] _ (by decide) (by decide) (by decide) (by decide)
    (Or.inr ⟨"doctor", rfl, by decide⟩)

/-- C4: every token that fails cryptographic verification (bad signature or
malformed structure, modelled by the verification environment returning
`none`) and every correctly signed token whose `expiresAt` is not after the
current time is rejected with `invalidCredential`: a single 401
`Invalid token` response and no downstream call. -/
theorem authGate_invalid_or_expired_unauthorized (env : TokenEnv) (roles : List String)
    (now : Nat) (tok : List Char)
    (htne : tok ≠ []) (htsp : ' ' ∉ tok)
    (hbad : env (String.mk tok) = none
      ∨ ∃ c : Claim, env (String.mk tok) = some c ∧ c.expiresAt ≤ now) :
    authGate env roles now (some (String.mk (bearerChars ++ tok)))
      = { responses := [(401, "Invalid token")], nextCalls := 0, identity := none } := by
  rw [authGate_bearer env roles now tok htne htsp]
  rcases hbad with h | ⟨c, hc, he⟩
  · rw [verifyStage_badtoken env roles now _ h]; rfl
  · rw [verifyStage_expired env roles now _ c hc he]; rfl

/-- Witness for C4 at concrete inputs: an environment rejecting every token
and an empty allowlist, applied to token string `t`. -/
theorem authGate_invalid_or_expired_unauthorized_witness :
    authGate (fun _ => none) [] 9 (some (String.mk (bearerChars ++ ['t'])))
      = { responses := [(401, "Invalid token")], nextCalls := 0, identity := none } :=
  authGate_invalid_or_expired_unauthorized _ _ _ ['t'] (by decide) (by decide) (Or.inl rfl)

/-- C5: a rejecting run on a token the secret does not verify and a rejecting
run on a correctly signed but expired token emit identical error responses —
the same single status and body — so an observer cannot tell which
`invalidCredential` sub-case occurred. -/
theorem authGate_reject_indistinguishable (env : TokenEnv) (roles₁ roles₂ : List String)
    (now : Nat) (tok₁ tok₂ : List Char) (c : Claim)
    (h1ne : tok₁ ≠ []) (h1sp : ' ' ∉ tok₁)
    (h2ne : tok₂ ≠ []) (h2sp : ' ' ∉ tok₂)
    (hbadSig : env (String.mk tok₁) = none)
    (hsigned : env (String.mk tok₂) = some c) (hexp : c.expiresAt ≤ now) :
    (authGate env roles₁ now (some (String.mk (bearerChars ++ tok₁)))).responses
      = (authGate env roles₂ now (some (String.mk (bearerChars ++ tok₂)))).responses := by
  rw [authGate_bearer env roles₁ now tok₁ h1ne h1sp,
    authGate_bearer env roles₂ now tok₂ h2ne h2sp,
    verifyStage_badtoken env roles₁ now _ hbadSig,
    verifyStage_expired env roles₂ now _ c hsigned hexp]

/-- Witness for C5 at concrete inputs: token `b` fails verification, token
`e` verifies to a claim that expired at time 10, current time 10. -/
theorem authGate_reject_indistinguishable_witness :
    (authGate (fun s => if s = String.mk ['e'] then some ⟨"u-1", some "doctor", 0, 10⟩ else none)
        [] 10 (some (String.mk (bearerChars ++ ['b'])))).responses
      = (authGate (fun s => if s = String.mk ['e'] then some ⟨"u-1", some "doctor", 0, 10⟩ else none)
        ["admin"] 10 (some (String.mk (bearerChars ++ ['e'])))).responses :=
  authGate_reject_indistinguishable _ _ _ _ ['b'] ['e'] ⟨"u-1", some "doctor", 0, 10⟩
    (by decide) (by decide) (by decide) (by decide) (by decide) (by decide) (by decide)

/-- C6: with an empty permitted-roles configuration the gate is
authenticated-only: every valid, unexpired token proceeds to the downstream
handler whatever its role field holds — any string, or no role at all. -/
theorem authGate_empty_allowlist_proceeds (env : TokenEnv) (now : Nat)
    (tok : List Char) (c : Claim)
    (htne : tok ≠ []) (htsp : ' ' ∉ tok)
    (henv : env (String.mk tok) = some c)
    (hexp : now < c.expiresAt) :
    authGate env [] now (some (String.mk (bearerChars ++ tok)))
      = { responses := [], nextCalls := 1, identity := some c } := by
  rw [authGate_bearer env [] now tok htne htsp,
    verifyStage_fresh env [] now _ c henv hexp,
    checkRole_allowed [] c (Or.inl rfl)]
  rfl

/-- Witness for C6 at a concrete input: the claim's role is the string
`superuser`, outside the `{admin, doctor, patient}` enumeration, and the gate
still proceeds because the allowlist is empty. -/
theorem authGate_empty_allowlist_proceeds_witness :
    authGate (fun s => if s = String.mk ['t'] then some ⟨"u-2", some "superuser", 0, 100⟩ else none)
        [] 5 (some (String.mk (bearerChars ++ ['t'])))
      = { responses := [], nextCalls := 1, identity := some ⟨"u-2", some "superuser", 0, 100⟩ } :=
  authGate_empty_allowlist_proceeds _ _ ['t'] _ (by decide) (by decide) (by decide) (by decide)

/-- C7: with a non-empty permitted-roles list, a valid unexpired token whose
role is missing or not a member of the list is rejected with `forbidden`: a
single 403 `Forbidden` response, no downstream call, and no crash — the gate
is a total function returning this value. -/
theorem authGate_role_mismatch_forbidden (env : TokenEnv) (roles : List String)
    (now : Nat) (tok : List Char) (c : Claim)
    (hne : roles ≠ [])
    (htne : tok ≠ []) (htsp : ' ' ∉ tok)
    (henv : env (String.mk tok) = some c)
    (hexp : now < c.expiresAt)
    (hrole : ∀ r, c.role = some r → r ∉ roles) :
    authGate env roles now (some (String.mk (bearerChars ++ tok)))
      = { responses := [(403, "Forbidden")], nextCalls := 0, identity := some c } := by
  rw [authGate_bearer env roles now tok htne htsp,
    verifyStage_fresh env roles now _ c henv hexp,
    checkRole_forbidden roles c hne hrole]
  rfl

/-- Witness for C7 at a concrete input: a claim with no role field at all,
allowlist `[admin]` — rejected with 403 `Forbidden`, not a crash. -/
theorem authGate_role_mismatch_forbidden_witness :
    authGate (fun s => if s = String.mk ['t'] then some ⟨"u-3", none, 0, 100⟩ else none)
        ["admin"] 5 (some (String.mk (bearerChars ++ ['t'])))
      = { responses := [(403, "Forbidden")], nextCalls := 0, identity := some ⟨"u-3", none, 0, 100⟩ } :=
  authGate_role_mismatch_forbidden _ _ _ ['t'] _ (by decide) (by decide) (by decide)
    (by decide) (by decide) (fun r hr => by simp at hr)

/-- C2: every invocation of the gate reaches exactly one of two terminal
outcomes — proceed, calling the downstream handler exactly once with no error
response, or reject, emitting exactly one error response and never calling
the downstream handler. -/
theorem authGate_terminal_dichotomy (env : TokenEnv) (roles : List String) (now : Nat)
    (header : Option String) :
    ((authGate env roles now header).nextCalls = 1
        ∧ (authGate env roles now header).responses = [])
    ∨ ((authGate env roles now header).nextCalls = 0
        ∧ (authGate env roles now header).responses.length = 1) := by
  cases hx : extractToken header with
  | none =>
    have h : authGate env roles now header = reject .accessDenied none := by
      unfold authGate; rw [hx]
    rw [h]; right; exact ⟨rfl, rfl⟩
  | some tok =>
    have h : authGate env roles now header = verifyStage env roles now tok := by
      unfold authGate; rw [hx]
    rw [h]
    cases he : env tok with
    | none =>
      rw [verifyStage_badtoken env roles now tok he]; right; exact ⟨rfl, rfl⟩
    | some c =>
      by_cases hex : c.expiresAt ≤ now
      · rw [verifyStage_expired env roles now tok c he hex]; right; exact ⟨rfl, rfl⟩
      · rw [verifyStage_fresh env roles now tok c he (by omega)]
        by_cases hr : roles = [] ∨ ∃ r, c.role = some r ∧ r ∈ roles
        · rw [checkRole_allowed roles c hr]; left; exact ⟨rfl, rfl⟩
        · rw [checkRole_forbidden roles c (fun hq => hr (Or.inl hq))
            (fun r hrr hm => hr (Or.inr ⟨r, hrr, hm⟩))]
          right; exact ⟨rfl, rfl⟩

/-- C3: a request whose credential header is absent, or whose header value is
not exactly one `Bearer ` marker immediately followed by the token — no
surrounding whitespace, no extra delimiters, no other shape — is rejected
with a single 403 `Access denied` response and no downstream call. -/
theorem authGate_malformed_header_denied (env : TokenEnv) (roles : List String) (now : Nat)
    (header : Option String)
    (hmal : ∀ t : List Char, t ≠ [] → ' ' ∉ t →
      header ≠ some (String.mk (bearerChars ++ t))) :
    authGate env roles now header
      = { responses := [(403, "Access denied")], nextCalls := 0, identity := none } := by
  have hx : extractToken header = none := by
    cases header with
    | none => rfl
    | some h =>
      cases hy : extractToken (some h) with
      | none => rfl
      | some tokS =>
        obtain ⟨t, htne, htsp, rfl⟩ := extractToken_some_shape h tokS hy
        exact absurd rfl (hmal t htne htsp)
  unfold authGate
  rw [hx]
  rfl

/-- Witness for C3 at a concrete input: the single-character header `x`,
which carries no `Bearer ` marker at all. -/
theorem authGate_malformed_header_denied_witness :
    authGate (fun _ => none) [] 0 (some (String.mk ['x']))
      = { responses := [(403, "Access denied")], nextCalls := 0, identity := none } :=
  authGate_malformed_header_denied _ _ _ _ (by
    intro t htne htsp heq
    have hd : (['x'] : List Char) = bearerChars ++ t :=
      congrArg String.data (Option.some.inj heq)
    have hlen := congrArg List.length hd
    rw [List.length_append] at hlen
    simp [bearerChars] at hlen
    omega)

/-- C8 counterexample: registration applies no validation to the requested
role, and login signs whatever role is stored, so a user registered with role
`superuser` receives a token whose role is outside `{admin, doctor, patient}`. -/
theorem role_enum_counterexample :
    login (some (registeredUser "u-9" ⟨"Eve", "eve@x.com", "pw", "superuser"⟩)) "pw" 0
      = .success { userId := "u-9", role := "superuser", iat := 0, exp := tokenLifetime }
    ∧ ¬ ("superuser" ∈ (["admin", "doctor", "patient"] : List String)) := by
  refine ⟨?_, by decide⟩
  simp [login, registeredUser, tokenLifetime]

/-- C8 amended: registration stores the client-supplied role verbatim and
login embeds the stored role verbatim, so the issued token's role lies in the
`{admin, doctor, patient}` enumeration exactly when the role supplied at
registration did — the code itself never enforces the enumeration. -/
theorem role_enum_preserved (freshId : String) (b : RegisterBody) (pw : String) (now : Nat)
    (t : TokenPayload)
    (hrole : b.role ∈ (["admin", "doctor", "patient"] : List String))
    (hlogin : login (some (registeredUser freshId b)) pw now = .success t) :
    t.role ∈ (["admin", "doctor", "patient"] : List String) := by
  rw [login_some] at hlogin
  by_cases hp : (registeredUser freshId b).password ≠ pw
  · rw [if_pos hp] at hlogin
    exact absurd hlogin (fun h => LoginResult.noConfusion h)
  · rw [if_neg hp] at hlogin
    have ht := LoginResult.success.inj hlogin
    rw [← ht]
    exact hrole

/-- Witness for the amended C8 at a concrete input: registering with role
`admin` yields a token whose role is still inside the enumeration. -/
theorem role_enum_preserved_witness :
    ({ userId := "u-1", role := "admin", iat := 0, exp := tokenLifetime } : TokenPayload).role
      ∈ (["admin", "doctor", "patient"] : List String) :=
  role_enum_preserved "u-1" ⟨"A", "a@x.com", "pw", "admin"⟩ "pw" 0
    ⟨"u-1", "admin", 0, tokenLifetime⟩ (by decide) (by rfl)

/-- C9: on the patient-detail route, a requester whose token role is
`patient` receives the record exactly when the token's `userId` equals the
`Patient` record's own `id`, and otherwise gets 403 `Access denied`; a
requester whose token role is `doctor` is not subject to the ownership check. -/
theorem patient_fetch_ownership (user : TokenPayload) (p : Patient) :
    (user.role = "patient" →
      (user.userId = p.id →
        getPatientById user (some p) = { status := 200, body := some p, error := none })
      ∧ (user.userId ≠ p.id →
        getPatientById user (some p)
          = { status := 403, body := none, error := some "Access denied" }))
    ∧ (user.role = "doctor" →
      getPatientById user (some p) = { status := 200, body := some p, error := none }) := by
  refine ⟨fun hrole => ⟨fun hown => ?_, fun hown => ?_⟩, fun hrole => ?_⟩
  · rw [getPatientById_some, if_neg (by simp [hown])]
  · rw [getPatientById_some, if_pos ⟨hrole, hown⟩]
  · rw [getPatientById_some, if_neg ?_]
    rintro ⟨h1, -⟩
    rw [hrole] at h1
    exact (by decide : ("doctor" : String) ≠ "patient") h1

/-- Witness for C9 at concrete inputs: a patient requesting someone else's
record is denied; a doctor requesting the same record receives it. -/
theorem patient_fetch_ownership_witness :
    getPatientById ⟨"patient-2", "patient", 0, 10⟩
        (some ⟨"patient-1", "John", 30, none, none, none⟩)
      = { status := 403, body := none, error := some "Access denied" }
    ∧ getPatientById ⟨"doc-1", "doctor", 0, 10⟩
        (some ⟨"patient-1", "John", 30, none, none, none⟩)
      = { status := 200, body := some ⟨"patient-1", "John", 30, none, none, none⟩, error := none } :=
  ⟨((patient_fetch_ownership ⟨"patient-2", "patient", 0, 10⟩ _).1 rfl).2 (by decide),
   (patient_fetch_ownership ⟨"doc-1", "doctor", 0, 10⟩ _).2 rfl⟩

/-- C10: every successful login issues a token whose payload holds exactly
the authenticated user's database id as `userId` and the user's stored role
as `role`, with a lifetime of 24 hours (86400 seconds), so its expiry is
strictly greater than its issued-at timestamp. -/
theorem login_token_payload (u : User) (pw : String) (now : Nat)
    (hpw : u.password = pw) :
    login (some u) pw now
      = .success { userId := u.id, role := u.role, iat := now, exp := now + tokenLifetime }
    ∧ now < now + tokenLifetime := by
  constructor
  · rw [login_some, if_neg (by simp [hpw])]
  · simp [tokenLifetime]

/-- Witness for C10 at a concrete input: a stored doctor logging in with the
matching password. -/
theorem login_token_payload_witness :
    login (some ⟨"user-123", "Test User", "t@test.com", "password123", "doctor"⟩)
        "password123" 1000
      = .success { userId := "user-123", role := "doctor", iat := 1000, exp := 1000 + tokenLifetime }
    ∧ 1000 < 1000 + tokenLifetime :=
  login_token_payload ⟨"user-123", "Test User", "t@test.com", "password123", "doctor"⟩
    "password123" 1000 rfl

end ProjectAlpha
